import Mathlib

/-!
Shallow embedding of the karate.greenegin.ca school-management services.

Database tables are embedded as lists of row structures.  Every awaited
Supabase call is given an explicit outcome: the query runs against the
embedded tables, the client reports an error in its response object, or the
awaited promise rejects with an exception.  Record payloads whose keys may be
absent are embedded as structures of `Option` fields.  Functions that can
throw are embedded with `Except`; functions whose bodies are wrapped in
try/catch are total.
-/

/-- Eligibility status returned by checkStudentEligibility.
Modelled from the spec: the EligibilityStatus type and the
checkStudentEligibility helper live in files (~/types/payment,
~/utils/supabase.server) that are not part of the provided sources; the
spec glossary describes eligibility as a derived status (e.g. Trial,
Expired, Active) and the payment-eligibility service consults only its
reason field. -/
structure EligibilityStatus where
  reason : String
  deriving Repr, DecidableEq

/-- Row of the families table, with the columns read by the
payment-eligibility service and written by the family-edit action. -/
structure FamilyRow where
  id : String
  name : String
  email : String
  primary_phone : String
  address : String
  city : String
  province : String
  postal_code : String
  emergency_contact : Option String
  health_info : Option String
  notes : Option String
  referral_source : Option String
  referral_name : Option String
  updated_at : String
  deriving Repr, DecidableEq

/-- Row of the students table, with the columns read by the
payment-eligibility service and written by the admin student action. -/
structure StudentRow where
  id : String
  family_id : String
  first_name : String
  last_name : String
  gender : String
  birth_date : String
  cell_phone : Option String
  email : Option String
  t_shirt_size : String
  school : String
  grade_level : Option String
  special_needs : Option String
  allergies : Option String
  medications : Option String
  immunizations_up_to_date : String
  immunization_notes : Option String
  deriving Repr, DecidableEq

/-- Row of the payments table (columns used by the eligibility service). -/
structure PaymentRow where
  id : String
  family_id : String
  status : String
  deriving Repr, DecidableEq

/-- Row of the payment_students link table. -/
structure PaymentStudentRow where
  student_id : String
  payment_id : String
  deriving Repr, DecidableEq

/-- Row of the one_on_one_sessions table. -/
structure SessionRow where
  id : String
  family_id : String
  purchase_date : String
  quantity_purchased : Int
  quantity_remaining : Int
  deriving Repr, DecidableEq

/-- Row of the discount_codes table (columns used by the discount check). -/
structure DiscountCodeRow where
  id : String
  is_active : Bool
  family_id : Option String
  valid_until : Option String
  deriving Repr, DecidableEq

/-- The embedded database state. -/
structure Db where
  families : List FamilyRow
  students : List StudentRow
  payments : List PaymentRow
  payment_students : List PaymentStudentRow
  one_on_one_sessions : List SessionRow
  discount_codes : List DiscountCodeRow
  deriving Repr

/-- Outcome of one awaited Supabase call: the query executes against the
database, the client reports an error in the response object, or the await
itself rejects with an exception. -/
inductive Fetch where
  | ok
  | dbErr (msg : String)
  | exn (msg : String)
  deriving Repr, DecidableEq

/-- Structural insertion used to embed the order-by clauses of queries
(the order never affects the verified properties, only the row sequence). -/
def insertSorted (le : α → α → Bool) (x : α) : List α → List α
  | [] => [x]
  | y :: ys => if le x y then x :: y :: ys else y :: insertSorted le x ys

/-- Sorting by insertion; a permutation of its input. -/
def sortBy (le : α → α → Bool) : List α → List α
  | [] => []
  | x :: xs => insertSorted le x (sortBy le xs)

/-- Environment of one invocation of the payment-eligibility service: the
database, the clock, the configured monthly price, the outcome of each
awaited call, and the externally defined checkStudentEligibility helper
(an Except.error models the call throwing). -/
structure EligEnv where
  db : Db
  now : String
  pricingMonthly : Int
  familyFetch : Fetch
  studentsFetch : Fetch
  paymentsFetch : Fetch
  linksFetch : Fetch
  sessionsFetch : Fetch
  discountsFetch : Fetch
  eligibility : String → Except String EligibilityStatus

/-- One purchase entry of IndividualSessionInfo. -/
structure SessionPurchase where
  id : String
  purchaseDate : String
  quantityPurchased : Int
  quantityRemaining : Int
  deriving Repr, DecidableEq

/-- IndividualSessionInfo returned by getFamilyIndividualSessions. -/
structure IndividualSessionInfo where
  totalPurchased : Int
  totalRemaining : Int
  purchases : List SessionPurchase
  deriving Repr, DecidableEq

/-- The one_on_one_sessions rows fetched for a family, newest first. -/
def familySessionRows (db : Db) (familyId : String) : List SessionRow :=
  sortBy (fun a b => decide (b.purchase_date ≤ a.purchase_date))
    (db.one_on_one_sessions.filter (fun s => s.family_id == familyId))

/-- getFamilyIndividualSessions: fetches a family's one-on-one session
purchases and totals them; any reported error or thrown exception is caught
and yields the zero default. -/
def getFamilyIndividualSessions (familyId : String) (env : EligEnv) :
    IndividualSessionInfo :=
  match env.sessionsFetch with
  | Fetch.dbErr _ => { totalPurchased := 0, totalRemaining := 0, purchases := [] }
  | Fetch.exn _ => { totalPurchased := 0, totalRemaining := 0, purchases := [] }
  | Fetch.ok =>
    let sessionsData := familySessionRows env.db familyId
    let purchases := sessionsData.map (fun s =>
      { id := s.id
        purchaseDate := s.purchase_date
        quantityPurchased := s.quantity_purchased
        quantityRemaining := s.quantity_remaining : SessionPurchase })
    let totalPurchased := purchases.foldl (fun sum p => sum + p.quantityPurchased) 0
    let totalRemaining := purchases.foldl (fun sum p => sum + p.quantityRemaining) 0
    { totalPurchased := totalPurchased
      totalRemaining := totalRemaining
      purchases := purchases }

/-- StudentPaymentDetail as assembled by the eligibility service. -/
structure StudentPaymentDetail where
  studentId : String
  firstName : String
  lastName : String
  eligibility : EligibilityStatus
  needsPayment : Bool
  nextPaymentAmount : Int
  nextPaymentTierLabel : String
  pastPaymentCount : Nat
  individualSessions : IndividualSessionInfo
  deriving Repr, DecidableEq

/-- PaymentEligibilityData returned by the eligibility service. -/
structure PaymentEligibilityData where
  familyId : String
  familyName : Option String
  studentPaymentDetails : List StudentPaymentDetail
  hasAvailableDiscounts : Bool
  error : Option String
  deriving Repr, DecidableEq

/-- Tags of the queries issued during one run of the eligibility service,
used to record which reads were performed and how often. -/
inductive QueryTag where
  | familyQ
  | studentsQ
  | paymentsQ
  | linksQ
  | sessionsQ
  | eligibilityQ (studentId : String)
  | discountsQ
  deriving Repr, DecidableEq

/-- Error-object shape the eligibility service returns on a failed read. -/
def eligibilityError (familyId : String) (familyName : Option String)
    (msg : String) : PaymentEligibilityData :=
  { familyId := familyId
    familyName := familyName
    studentPaymentDetails := []
    hasAvailableDiscounts := false
    error := some msg }

/-- The students rows fetched for a family. -/
def studentsOf (db : Db) (familyId : String) : List StudentRow :=
  db.students.filter (fun s => s.family_id == familyId)

/-- Ids of the family's payments with status succeeded, as fetched. -/
def successfulPaymentIds (db : Db) (familyId : String) : List String :=
  (db.payments.filter (fun p => p.family_id == familyId && p.status == "succeeded")).map
    (fun p => p.id)

/-- The payment_students rows the service works with: the rows whose
payment_id is among the successful payment ids when there are any, and the
empty list (without issuing the query) otherwise. -/
def fetchedLinks (db : Db) (familyId : String) : List PaymentStudentRow :=
  if 0 < (successfulPaymentIds db familyId).length then
    db.payment_students.filter (fun link =>
      (successfulPaymentIds db familyId).contains link.payment_id)
  else []

/-- The detail record pushed for one student by the per-student loop. -/
def mkStudentDetail (pricingMonthly : Int) (links : List PaymentStudentRow)
    (info : IndividualSessionInfo) (s : StudentRow) (elig : EligibilityStatus) :
    StudentPaymentDetail :=
  { studentId := s.id
    firstName := s.first_name
    lastName := s.last_name
    eligibility := elig
    needsPayment := elig.reason == "Trial" || elig.reason == "Expired"
    nextPaymentAmount := pricingMonthly
    nextPaymentTierLabel := "Monthly"
    pastPaymentCount := (links.filter (fun link => link.student_id == s.id)).length
    individualSessions := info }

/-- The per-student loop: checks eligibility for each student in order and
assembles the details; an eligibility exception aborts the loop.  The second
component records the eligibility calls issued. -/
def computeStudentDetails (env : EligEnv) (links : List PaymentStudentRow)
    (info : IndividualSessionInfo) :
    List StudentRow → Except String (List StudentPaymentDetail) × List QueryTag
  | [] => (Except.ok [], [])
  | s :: rest =>
    match env.eligibility s.id with
    | Except.error e => (Except.error e, [QueryTag.eligibilityQ s.id])
    | Except.ok elig =>
      match computeStudentDetails env links info rest with
      | (Except.ok ds, tr) =>
        (Except.ok (mkStudentDetail env.pricingMonthly links info s elig :: ds),
         QueryTag.eligibilityQ s.id :: tr)
      | (Except.error e, tr) => (Except.error e, QueryTag.eligibilityQ s.id :: tr)

/-- Tail of getFamilyPaymentEligibilityData after the payment links are in
hand: individual sessions, the per-student loop, and the discount check. -/
def eligibilityTail (familyId : String) (env : EligEnv) (familyName : String)
    (students : List StudentRow) (paymentStudentLinks : List PaymentStudentRow)
    (tracePrefix : List QueryTag) : PaymentEligibilityData × List QueryTag :=
  let catchAll := eligibilityError familyId none
    "An unexpected error occurred while loading payment information."
  let individualSessions := getFamilyIndividualSessions familyId env
  let traceS := tracePrefix ++ [QueryTag.sessionsQ]
  match computeStudentDetails env paymentStudentLinks individualSessions students with
  | (Except.error _, tr) => (catchAll, traceS ++ tr)
  | (Except.ok studentPaymentDetails, tr) =>
    let traceL := traceS ++ tr
    match env.discountsFetch with
    | Fetch.exn _ => (catchAll, traceL ++ [QueryTag.discountsQ])
    | Fetch.dbErr _ =>
      ({ familyId := familyId
         familyName := some familyName
         studentPaymentDetails := studentPaymentDetails
         hasAvailableDiscounts := false
         error := none },
       traceL ++ [QueryTag.discountsQ])
    | Fetch.ok =>
      let availableDiscountsData :=
        (env.db.discount_codes.filter (fun d =>
          d.is_active &&
          (d.family_id == some familyId || d.family_id == none) &&
          (match d.valid_until with
           | none => true
           | some v => decide (env.now ≤ v)))).take 1
      ({ familyId := familyId
         familyName := some familyName
         studentPaymentDetails := studentPaymentDetails
         hasAvailableDiscounts := decide (0 < availableDiscountsData.length)
         error := none },
       traceL ++ [QueryTag.discountsQ])

/-- getFamilyPaymentEligibilityData: five sequential reads, the per-student
loop, and the discount check; every reported read error returns an error
object, and the surrounding try/catch turns any exception into the
unexpected-error object.  The second component is the trace of issued
queries. -/
def getFamilyPaymentEligibilityData (familyId : String) (env : EligEnv) :
    PaymentEligibilityData × List QueryTag :=
  let catchAll := eligibilityError familyId none
    "An unexpected error occurred while loading payment information."
  match env.familyFetch with
  | Fetch.exn _ => (catchAll, [QueryTag.familyQ])
  | Fetch.dbErr _ =>
    (eligibilityError familyId none "Could not load family details.", [QueryTag.familyQ])
  | Fetch.ok =>
    match env.db.families.filter (fun f => f.id == familyId) with
    | [family] =>
      let familyName := family.name
      match env.studentsFetch with
      | Fetch.exn _ => (catchAll, [QueryTag.familyQ, QueryTag.studentsQ])
      | Fetch.dbErr _ =>
        (eligibilityError familyId (some familyName) "Could not load student information.",
         [QueryTag.familyQ, QueryTag.studentsQ])
      | Fetch.ok =>
        let students := studentsOf env.db familyId
        if students.length == 0 then
          (eligibilityError familyId (some familyName) "No students found in this family.",
           [QueryTag.familyQ, QueryTag.studentsQ])
        else
          match env.paymentsFetch with
          | Fetch.exn _ =>
            (catchAll, [QueryTag.familyQ, QueryTag.studentsQ, QueryTag.paymentsQ])
          | Fetch.dbErr _ =>
            (eligibilityError familyId (some familyName) "Could not load payment history.",
             [QueryTag.familyQ, QueryTag.studentsQ, QueryTag.paymentsQ])
          | Fetch.ok =>
            if 0 < (successfulPaymentIds env.db familyId).length then
              match env.linksFetch with
              | Fetch.exn _ =>
                (catchAll,
                 [QueryTag.familyQ, QueryTag.studentsQ, QueryTag.paymentsQ, QueryTag.linksQ])
              | Fetch.dbErr _ =>
                (eligibilityError familyId (some familyName)
                   "Could not load payment link history.",
                 [QueryTag.familyQ, QueryTag.studentsQ, QueryTag.paymentsQ, QueryTag.linksQ])
              | Fetch.ok =>
                eligibilityTail familyId env familyName students
                  (fetchedLinks env.db familyId)
                  [QueryTag.familyQ, QueryTag.studentsQ, QueryTag.paymentsQ, QueryTag.linksQ]
            else
              eligibilityTail familyId env familyName students []
                [QueryTag.familyQ, QueryTag.studentsQ, QueryTag.paymentsQ
            ]
    | _ =>
      (eligibilityError familyId none "Could not load family details.", [QueryTag.familyQ])

/-- Row of the programs table. -/
structure ProgramRow where
  id : String
  name : String
  description : String
  duration_minutes : Int
  max_capacity : Int
  sessions_per_week : Int
  min_sessions_per_week : Int
  max_sessions_per_week : Int
  min_belt_rank : String
  max_belt_rank : String
  belt_rank_required : Bool
  prerequisite_programs : List String
  min_age : Int
  max_age : Int
  gender_restriction : String
  special_needs_support : Bool
  monthly_fee : Int
  registration_fee : Int
  yearly_fee : Int
  individual_session_fee : Int
  is_active : Bool
  created_at : String
  updated_at : String
  deriving Repr, DecidableEq

/-- CreateProgramData: the insert payload fields of createProgram; the two
fields the code defaults with a nullish coalesce are optional. -/
structure CreateProgramData where
  name : String
  description : String
  duration_minutes : Int
  max_capacity : Int
  sessions_per_week : Int
  min_sessions_per_week : Int
  max_sessions_per_week : Int
  min_belt_rank : String
  max_belt_rank : String
  belt_rank_required : Option Bool
  prerequisite_programs : List String
  min_age : Int
  max_age : Int
  gender_restriction : String
  special_needs_support : Bool
  monthly_fee : Int
  registration_fee : Int
  yearly_fee : Int
  individual_session_fee : Int
  is_active : Option Bool
  deriving Repr, DecidableEq

/-- Partial UpdateProgramData: a field holds none when it is undefined in
the updates object. -/
structure UpdateProgramData where
  name : Option String := none
  description : Option String := none
  duration_minutes : Option Int := none
  max_capacity : Option Int := none
  sessions_per_week : Option Int := none
  min_sessions_per_week : Option Int := none
  max_sessions_per_week : Option Int := none
  min_belt_rank : Option String := none
  max_belt_rank : Option String := none
  belt_rank_required : Option Bool := none
  prerequisite_programs : Option (List String) := none
  min_age : Option Int := none
  max_age : Option Int := none
  gender_restriction : Option String := none
  special_needs_support : Option Bool := none
  monthly_fee : Option Int := none
  registration_fee : Option Int := none
  yearly_fee : Option Int := none
  individual_session_fee : Option Int := none
  is_active : Option Bool := none
  deriving Repr, DecidableEq

/-- The updateData record built by updateProgram: updated_at is always
present, every other key is present exactly when the corresponding updates
field is provided. -/
structure ProgramUpdatePayload where
  updated_at : String
  name : Option String
  description : Option String
  duration_minutes : Option Int
  max_capacity : Option Int
  sessions_per_week : Option Int
  min_sessions_per_week : Option Int
  max_sessions_per_week : Option Int
  min_belt_rank : Option String
  max_belt_rank : Option String
  belt_rank_required : Option Bool
  prerequisite_programs : Option (List String)
  min_age : Option Int
  max_age : Option Int
  gender_restriction : Option String
  special_needs_support : Option Bool
  monthly_fee : Option Int
  registration_fee : Option Int
  yearly_fee : Option Int
  individual_session_fee : Option Int
  is_active : Option Bool
  deriving Repr, DecidableEq

/-- Builds updateProgram's updateData record: the chain of
"if updates.f !== undefined" guards makes each key present exactly when the
updates field is, and updated_at is set unconditionally to the clock. -/
def buildProgramUpdatePayload (updates : UpdateProgramData) (now : String) :
    ProgramUpdatePayload :=
  { updated_at := now
    name := updates.name
    description := updates.description
    duration_minutes := updates.duration_minutes
    max_capacity := updates.max_capacity
    sessions_per_week := updates.sessions_per_week
    min_sessions_per_week := updates.min_sessions_per_week
    max_sessions_per_week := updates.max_sessions_per_week
    min_belt_rank := updates.min_belt_rank
    max_belt_rank := updates.max_belt_rank
    belt_rank_required := updates.belt_rank_required
    prerequisite_programs := updates.prerequisite_programs
    min_age := updates.min_age
    max_age := updates.max_age
    gender_restriction := updates.gender_restriction
    special_needs_support := updates.special_needs_support
    monthly_fee := updates.monthly_fee
    registration_fee := updates.registration_fee
    yearly_fee := updates.yearly_fee
    individual_session_fee := updates.individual_session_fee
    is_active := updates.is_active }

/-- Applies an update payload to a stored row: present keys overwrite the
stored column, absent keys leave it unchanged. -/
def applyProgramUpdatePayload (p : ProgramUpdatePayload) (r : ProgramRow) :
    ProgramRow :=
  { r with
    updated_at := p.updated_at
    name := p.name.getD r.name
    description := p.description.getD r.description
    duration_minutes := p.duration_minutes.getD r.duration_minutes
    max_capacity := p.max_capacity.getD r.max_capacity
    sessions_per_week := p.sessions_per_week.getD r.sessions_per_week
    min_sessions_per_week := p.min_sessions_per_week.getD r.min_sessions_per_week
    max_sessions_per_week := p.max_sessions_per_week.getD r.max_sessions_per_week
    min_belt_rank := p.min_belt_rank.getD r.min_belt_rank
    max_belt_rank := p.max_belt_rank.getD r.max_belt_rank
    belt_rank_required := p.belt_rank_required.getD r.belt_rank_required
    prerequisite_programs := p.prerequisite_programs.getD r.prerequisite_programs
    min_age := p.min_age.getD r.min_age
    max_age := p.max_age.getD r.max_age
    gender_restriction := p.gender_restriction.getD r.gender_restriction
    special_needs_support := p.special_needs_support.getD r.special_needs_support
    monthly_fee := p.monthly_fee.getD r.monthly_fee
    registration_fee := p.registration_fee.getD r.registration_fee
    yearly_fee := p.yearly_fee.getD r.yearly_fee
    individual_session_fee := p.individual_session_fee.getD r.individual_session_fee
    is_active := p.is_active.getD r.is_active }

/-- createProgram: inserts a row and returns it; a reported database error
is rethrown as "Failed to create program: ..." and an exception propagates
unchanged (there is no try/catch).  newId and createdAt stand for the
database-generated id and timestamp of the inserted row. -/
def createProgram (programData : CreateProgramData) (newId createdAt : String)
    (outcome : Fetch) (db : List ProgramRow) :
    Except String ProgramRow × List ProgramRow :=
  match outcome with
  | Fetch.exn m => (Except.error m, db)
  | Fetch.dbErr m => (Except.error ("Failed to create program: " ++ m), db)
  | Fetch.ok =>
    let row : ProgramRow :=
      { id := newId
        name := programData.name
        description := programData.description
        duration_minutes := programData.duration_minutes
        max_capacity := programData.max_capacity
        sessions_per_week := programData.sessions_per_week
        min_sessions_per_week := programData.min_sessions_per_week
        max_sessions_per_week := programData.max_sessions_per_week
        min_belt_rank := programData.min_belt_rank
        max_belt_rank := programData.max_belt_rank
        belt_rank_required := programData.belt_rank_required.getD false
        prerequisite_programs := programData.prerequisite_programs
        min_age := programData.min_age
        max_age := programData.max_age
        gender_restriction := programData.gender_restriction
        special_needs_support := programData.special_needs_support
        monthly_fee := programData.monthly_fee
        registration_fee := programData.registration_fee
        yearly_fee := programData.yearly_fee
        individual_session_fee := programData.individual_session_fee
        is_active := programData.is_active.getD true
        created_at := createdAt
        updated_at := createdAt }
    (Except.ok row, db ++ [row])

/-- updateProgram: builds the partial payload, updates the rows whose id
matches, and selects the single updated row; a reported database error is
rethrown as "Failed to update program: ...", and when the update matched no
single row the select-single step reports PGRST116, which is rethrown the
same way (so a nonexistent id throws). -/
def updateProgram (id : String) (updates : UpdateProgramData) (now : String)
    (outcome : Fetch) (db : List ProgramRow) :
    Except String ProgramRow × List ProgramRow :=
  let updateData := buildProgramUpdatePayload updates now
  match outcome with
  | Fetch.exn m => (Except.error m, db)
  | Fetch.dbErr m => (Except.error ("Failed to update program: " ++ m), db)
  | Fetch.ok =>
    let db2 := db.map (fun r =>
      if r.id == id then applyProgramUpdatePayload updateData r else r)
    match db2.filter (fun r => r.id == id) with
    | [r] => (Except.ok r, db2)
    | _ =>
      (Except.error
         "Failed to update program: JSON object requested, multiple (or no) rows returned",
       db2)

/-- Case-insensitive substring test embedding the ilike %s% patterns. -/
def charsContain (hay pat : List Char) : Bool :=
  pat.isPrefixOf hay ||
    match hay with
    | [] => false
    | _ :: t => charsContain t pat

/-- ilike with a %...% pattern on both sides. -/
def ilikeContains (hay pat : String) : Bool :=
  charsContain hay.toLower.data pat.toLower.data

/-- getPrograms: optional is_active and search filters, ordered by name; a
reported database error is rethrown as "Failed to fetch programs: ...". -/
def getPrograms (is_active_filter : Option Bool) (search : Option String)
    (outcome : Fetch) (db : List ProgramRow) : Except String (List ProgramRow) :=
  match outcome with
  | Fetch.exn m => Except.error m
  | Fetch.dbErr m => Except.error ("Failed to fetch programs: " ++ m)
  | Fetch.ok =>
    let filtered1 :=
      match is_active_filter with
      | some b => db.filter (fun r => r.is_active == b)
      | none => db
    let filtered2 :=
      match search with
      | some s =>
        if s == "" then filtered1
        else filtered1.filter (fun r => ilikeContains r.name s || ilikeContains r.description s)
      | none => filtered1
    Except.ok (sortBy (fun a b => decide (a.name ≤ b.name)) filtered2)

/-- getProgramById: select-single by id; the PGRST116 not-found error is
converted to null, every other reported error is rethrown as
"Failed to fetch program: ..." (dbErr stands for a non-PGRST116 error). -/
def getProgramById (id : String) (outcome : Fetch) (db : List ProgramRow) :
    Except String (Option ProgramRow) :=
  match outcome with
  | Fetch.exn m => Except.error m
  | Fetch.dbErr m => Except.error ("Failed to fetch program: " ++ m)
  | Fetch.ok =>
    match db.filter (fun r => r.id == id) with
    | [r] => Except.ok (some r)
    | _ => Except.ok none

/-- Outcome of the check_program_eligibility rpc: the returned value (null
modelled as none), a reported error, or a thrown exception. -/
inductive RpcOutcome where
  | ok (data : Option Bool)
  | dbErr (msg : String)
  | exn (msg : String)
  deriving Repr, DecidableEq

/-- Result shape of checkProgramEligibility. -/
structure EligibilityCheckResult where
  eligible : Bool
  reasons : List String
  deriving Repr, DecidableEq

/-- checkProgramEligibility: calls the database rpc with the two ids; a
reported error and a thrown exception are both caught and converted into an
ineligible result with one generic reason; a truthy value yields eligible
with no reasons and a falsy value yields ineligible with one reason. -/
def checkProgramEligibility (programId studentId : String) (outcome : RpcOutcome) :
    EligibilityCheckResult :=
  match programId, studentId, outcome with
  | _, _, RpcOutcome.dbErr _ =>
    { eligible := false, reasons := ["Error checking eligibility"] }
  | _, _, RpcOutcome.exn _ =>
    { eligible := false, reasons := ["System error checking eligibility"] }
  | _, _, RpcOutcome.ok data =>
    let isEligible := data.getD false
    if isEligible then { eligible := true, reasons := [] }
    else { eligible := false, reasons := ["Student does not meet program requirements"] }

/-- The number of payment_students rows whose student_id is the given one
and whose payment_id is the id of one of the family's succeeded payments,
written directly from the claim. -/
def specSucceededLinkCount (db : Db) (familyId studentId : String) : Nat :=
  (db.payment_students.filter (fun link =>
    link.student_id == studentId &&
    db.payments.any (fun p =>
      p.id == link.payment_id && p.family_id == familyId &&
        p.status == "succeeded"))).length

/-- Concrete family row used by the eligibility witnesses. -/
def wFamily : FamilyRow :=
  { id := "f1"
    name := "Doe"
    email := "doe@example.com"
    primary_phone := "555"
    address := "1 Main"
    city := "Victoria"
    province := "BC"
    postal_code := "V1V1V1"
    emergency_contact := none
    health_info := none
    notes := none
    referral_source := none
    referral_name := none
    updated_at := "2026-01-01" }

/-- Concrete student row used by the eligibility witnesses. -/
def wStudent : StudentRow :=
  { id := "s1"
    family_id := "f1"
    first_name := "Kim"
    last_name := "Doe"
    gender := "F"
    birth_date := "2015-01-01"
    cell_phone := none
    email := none
    t_shirt_size := "YM"
    school := "Oak Bay"
    grade_level := none
    special_needs := none
    allergies := none
    medications := none
    immunizations_up_to_date := "true"
    immunization_notes := none }

/-- Concrete database used by the eligibility witnesses: one family, one
student, one succeeded and one failed payment, one payment link. -/
def wDb : Db :=
  { families := [wFamily]
    students := [wStudent]
    payments := [{ id := "p1", family_id := "f1", status := "succeeded" },
                 { id := "p2", family_id := "f1", status := "failed" }]
    payment_students := [{ student_id := "s1", payment_id := "p1" }]
    one_on_one_sessions := []
    discount_codes := [] }

/-- Concrete environment where every fetch succeeds and eligibility reports
a trial. -/
def wEnv : EligEnv :=
  { db := wDb
    now := "2026-02-01"
    pricingMonthly := 150
    familyFetch := Fetch.ok
    studentsFetch := Fetch.ok
    paymentsFetch := Fetch.ok
    linksFetch := Fetch.ok
    sessionsFetch := Fetch.ok
    discountsFetch := Fetch.ok
    eligibility := fun _ => Except.ok { reason := "Trial" } }

/-- The single student detail the witness environment produces. -/
def wDetail : StudentPaymentDetail :=
  { studentId := "s1"
    firstName := "Kim"
    lastName := "Doe"
    eligibility := { reason := "Trial" }
    needsPayment := true
    nextPaymentAmount := 150
    nextPaymentTierLabel := "Monthly"
    pastPaymentCount := 1
    individualSessions := { totalPurchased := 0, totalRemaining := 0, purchases := [] } }

/-- The shape of every error return of the eligibility service: a non-empty
error string, no student details, and no available discounts. -/
def errorResultShape (r : PaymentEligibilityData) : Prop :=
  (∃ m, r.error = some m ∧ m ≠ "") ∧
  r.studentPaymentDetails = [] ∧
  r.hasAvailableDiscounts = false

/-- A failure that one run of getFamilyPaymentEligibilityData hits: one of
the four reads (family name, students, payments, payment links) reports an
error or throws when execution reaches it, or the eligibility check of the
first student throws, or the discount check throws, after the earlier reads
succeeded. -/
def eligibilityRunFailure (familyId : String) (env : EligEnv) : Prop :=
  (∃ m, env.familyFetch = Fetch.dbErr m ∨ env.familyFetch = Fetch.exn m) ∨
  (env.familyFetch = Fetch.ok ∧
    ∃ m, env.studentsFetch = Fetch.dbErr m ∨ env.studentsFetch = Fetch.exn m) ∨
  (env.familyFetch = Fetch.ok ∧ env.studentsFetch = Fetch.ok ∧
    ∃ m, env.paymentsFetch = Fetch.dbErr m ∨ env.paymentsFetch = Fetch.exn m) ∨
  (env.familyFetch = Fetch.ok ∧ env.studentsFetch = Fetch.ok ∧
    env.paymentsFetch = Fetch.ok ∧
    0 < (successfulPaymentIds env.db familyId).length ∧
    ∃ m, env.linksFetch = Fetch.dbErr m ∨ env.linksFetch = Fetch.exn m) ∨
  (env.familyFetch = Fetch.ok ∧ env.studentsFetch = Fetch.ok ∧
    env.paymentsFetch = Fetch.ok ∧
    (0 < (successfulPaymentIds env.db familyId).length → env.linksFetch = Fetch.ok) ∧
    ∃ s rest, studentsOf env.db familyId = s :: rest ∧
      ∃ e, env.eligibility s.id = Except.error e) ∨
  (env.familyFetch = Fetch.ok ∧ env.studentsFetch = Fetch.ok ∧
    env.paymentsFetch = Fetch.ok ∧
    (0 < (successfulPaymentIds env.db familyId).length → env.linksFetch = Fetch.ok) ∧
    (∀ s ∈ studentsOf env.db familyId, ∃ elig, env.eligibility s.id = Except.ok elig) ∧
    ∃ m, env.discountsFetch = Fetch.exn m)

/-- Environment identical to the witness environment except the family read
reports a database error. -/
def wEnvFamilyErr : EligEnv := { wEnv with familyFetch := Fetch.dbErr "boom" }

/-- JS falsiness of a nullable string: null/undefined or the empty string. -/
def isFalsy (s : Option String) : Bool :=
  match s with
  | none => true
  | some v => v == ""

/-- The form fields read by the family-edit action (null when absent). -/
structure FamilyEditForm where
  name : Option String
  email : Option String
  primary_phone : Option String
  address : Option String
  city : Option String
  province : Option String
  postal_code : Option String
  emergency_contact : Option String
  health_info : Option String
  notes : Option String
  referral_source : Option String
  referral_name : Option String
  deriving Repr, DecidableEq

/-- The fieldErrors keys the family-edit action can set. -/
structure FamilyFieldErrors where
  name : Option String := none
  email : Option String := none
  primary_phone : Option String := none
  address : Option String := none
  city : Option String := none
  province : Option String := none
  postal_code : Option String := none
  deriving Repr, DecidableEq

/-- The per-field presence validation of the family-edit action. -/
def familyFieldErrorsOf (form : FamilyEditForm) : FamilyFieldErrors :=
  { name := if isFalsy form.name then some "Family name is required." else none
    email := if isFalsy form.email then some "Email is required." else none
    address := if isFalsy form.address then some "Address is required." else none
    city := if isFalsy form.city then some "City is required." else none
    province := if isFalsy form.province then some "Province is required." else none
    postal_code := if isFalsy form.postal_code then some "Postal code is required." else none
    primary_phone := if isFalsy form.primary_phone then some "Primary phone is required." else none }

/-- Whether any field error was recorded (Object.keys(fieldErrors).length > 0). -/
def FamilyFieldErrors.hasAny (fe : FamilyFieldErrors) : Bool :=
  fe.name.isSome || fe.email.isSome || fe.primary_phone.isSome || fe.address.isSome ||
    fe.city.isSome || fe.province.isSome || fe.postal_code.isSome

/-- Response of the family-edit action: a json error with an HTTP status (and
field errors for validation failures), or the success redirect. -/
inductive FamilyActionResponse where
  | jsonError (status : Nat) (error : String) (fieldErrors : Option FamilyFieldErrors)
  | redirectTo (location : String)
  deriving Repr, DecidableEq

/-- Environment of one action invocation: the configuration env vars, the
clock, and whether the update call reports an error. -/
structure ActionEnv where
  supabaseUrl : Option String
  supabaseServiceKey : Option String
  now : String
  updateError : Option String
  deriving Repr, DecidableEq

/-- The row transformation the family update statement applies: rows whose
id matches are overwritten with the validated form values plus updated_at. -/
def familyUpdateApply (familyId : String) (form : FamilyEditForm) (env : ActionEnv)
    (f : FamilyRow) : FamilyRow :=
  if f.id == familyId then
    { f with
      name := form.name.getD ""
      email := form.email.getD ""
      primary_phone := form.primary_phone.getD ""
      address := form.address.getD ""
      city := form.city.getD ""
      province := form.province.getD ""
      postal_code := form.postal_code.getD ""
      emergency_contact := form.emergency_contact
      health_info := form.health_info
      notes := form.notes
      referral_source := form.referral_source
      referral_name := form.referral_name
      updated_at := env.now }
  else f

/-- The family-edit action: presence validation (400 with field errors, no
database call), configuration check (500), then an update keyed by id; a
reported database error yields 500, otherwise the action redirects.  The
update statement matches zero rows without error when the id does not
exist, so the action still redirects. -/
def familyEditAction (familyId : String) (form : FamilyEditForm) (env : ActionEnv)
    (families : List FamilyRow) : FamilyActionResponse × List FamilyRow :=
  let fieldErrors := familyFieldErrorsOf form
  if fieldErrors.hasAny then
    (FamilyActionResponse.jsonError 400 "Validation failed" (some fieldErrors), families)
  else if isFalsy env.supabaseUrl || isFalsy env.supabaseServiceKey then
    (FamilyActionResponse.jsonError 500 "Server configuration error" none, families)
  else
    match env.updateError with
    | some m =>
      (FamilyActionResponse.jsonError 500 ("Database error: " ++ m) none, families)
    | none =>
      (FamilyActionResponse.redirectTo ("/admin/families/" ++ familyId),
       families.map (familyUpdateApply familyId form env))

/-- The form fields read by the admin student-edit action. -/
structure StudentEditForm where
  intent : Option String
  first_name : Option String
  last_name : Option String
  gender : Option String
  birth_date : Option String
  cell_phone : Option String
  email : Option String
  t_shirt_size : Option String
  school : Option String
  grade_level : Option String
  special_needs : Option String
  allergies : Option String
  medications : Option String
  immunizations_up_to_date : Option String
  immunization_notes : Option String
  deriving Repr, DecidableEq

/-- The fieldErrors keys the student-edit action can set. -/
structure StudentFieldErrors where
  first_name : Option String := none
  last_name : Option String := none
  gender : Option String := none
  birth_date : Option String := none
  t_shirt_size : Option String := none
  school : Option String := none
  deriving Repr, DecidableEq

/-- Whether some field error was recorded (Object.values(...).some(Boolean)). -/
def StudentFieldErrors.hasAny (fe : StudentFieldErrors) : Bool :=
  fe.first_name.isSome || fe.last_name.isSome || fe.gender.isSome ||
    fe.birth_date.isSome || fe.t_shirt_size.isSome || fe.school.isSome

/-- The per-field presence validation of the student-edit action. -/
def studentFieldErrorsOf (form : StudentEditForm) : StudentFieldErrors :=
  { first_name := if isFalsy form.first_name then some "First name is required." else none
    last_name := if isFalsy form.last_name then some "Last name is required." else none
    gender := if isFalsy form.gender then some "Gender is required." else none
    birth_date := if isFalsy form.birth_date then some "Birth date is required." else none
    t_shirt_size := if isFalsy form.t_shirt_size then some "T-shirt size is required." else none
    school := if isFalsy form.school then some "School is required." else none }

/-- Response of the student-edit action. -/
inductive StudentActionResponse where
  | jsonError (status : Nat) (error : String) (fieldErrors : Option StudentFieldErrors)
  | jsonSuccess (message : String)
  deriving Repr, DecidableEq

/-- The "x as string || null" coercion: empty strings become null. -/
def emptyToNull (s : Option String) : Option String :=
  match s with
  | none => none
  | some v => if v == "" then none else some v

/-- The row transformation the student update statement applies. -/
def studentUpdateApply (studentId : String) (form : StudentEditForm)
    (s : StudentRow) : StudentRow :=
  if s.id == studentId then
    { s with
      first_name := form.first_name.getD ""
      last_name := form.last_name.getD ""
      gender := form.gender.getD ""
      birth_date := form.birth_date.getD ""
      cell_phone := emptyToNull form.cell_phone
      email := emptyToNull form.email
      t_shirt_size := form.t_shirt_size.getD ""
      school := form.school.getD ""
      grade_level := emptyToNull form.grade_level
      special_needs := emptyToNull form.special_needs
      allergies := emptyToNull form.allergies
      medications := emptyToNull form.medications
      immunizations_up_to_date :=
        if form.immunizations_up_to_date == some "on" then "true" else "false"
      immunization_notes := emptyToNull form.immunization_notes }
  else s

/-- The admin student-edit action: requires a student id and the edit
intent, validates required fields (400), checks configuration (500), then
updates by id inside try/catch; a reported error is rethrown, caught, and
returned as 500, otherwise the action reports success.  The update matches
zero rows without error when the id does not exist, so the action still
reports success. -/
def adminStudentUpdateAction (studentId : Option String) (form : StudentEditForm)
    (env : ActionEnv) (students : List StudentRow) :
    StudentActionResponse × List StudentRow :=
  match studentId with
  | none => (StudentActionResponse.jsonError 400 "Student ID is required" none, students)
  | some sid =>
    if form.intent != some "edit" then
      (StudentActionResponse.jsonError 400 "Invalid intent" none, students)
    else
      let fieldErrors := studentFieldErrorsOf form
      if fieldErrors.hasAny then
        (StudentActionResponse.jsonError 400 "Please correct the errors below."
           (some fieldErrors), students)
      else if isFalsy env.supabaseUrl || isFalsy env.supabaseServiceKey then
        (StudentActionResponse.jsonError 500 "Server configuration error." none, students)
      else
        match env.updateError with
        | some m =>
          (StudentActionResponse.jsonError 500 ("Failed to update student: " ++ m) none,
           students)
        | none =>
          (StudentActionResponse.jsonSuccess "Student details updated successfully.",
           students.map (studentUpdateApply sid form))

/-- Concrete program insert payload used in the C4 counterexample. -/
def cProgramData : CreateProgramData :=
  { name := "Karate Kids"
    description := "Intro program"
    duration_minutes := 45
    max_capacity := 20
    sessions_per_week := 2
    min_sessions_per_week := 1
    max_sessions_per_week := 3
    min_belt_rank := "white"
    max_belt_rank := "black"
    belt_rank_required := none
    prerequisite_programs := []
    min_age := 5
    max_age := 12
    gender_restriction := "none"
    special_needs_support := true
    monthly_fee := 120
    registration_fee := 50
    yearly_fee := 1200
    individual_session_fee := 40
    is_active := none }

/-- Concrete program row used by the program-service witnesses. -/
def wProgram : ProgramRow :=
  { id := "p1"
    name := "Karate Kids"
    description := "Intro program"
    duration_minutes := 45
    max_capacity := 20
    sessions_per_week := 2
    min_sessions_per_week := 1
    max_sessions_per_week := 3
    min_belt_rank := "white"
    max_belt_rank := "black"
    belt_rank_required := false
    prerequisite_programs := []
    min_age := 5
    max_age := 12
    gender_restriction := "none"
    special_needs_support := true
    monthly_fee := 120
    registration_fee := 50
    yearly_fee := 1200
    individual_session_fee := 40
    is_active := true
    created_at := "t0"
    updated_at := "t0" }

/-- Concrete valid family-edit form used by the action witnesses. -/
def wForm : FamilyEditForm :=
  { name := some "Doe"
    email := some "doe@example.com"
    primary_phone := some "555"
    address := some "1 Main"
    city := some "Victoria"
    province := some "BC"
    postal_code := some "V1V1V1"
    emergency_contact := none
    health_info := none
    notes := none
    referral_source := none
    referral_name := none }

/-- Concrete action environment with valid configuration and no database
error. -/
def wActionEnv : ActionEnv :=
  { supabaseUrl := some "url"
    supabaseServiceKey := some "key"
    now := "t1"
    updateError := none }

/-- Concrete form with the required family name missing. -/
def wFormMissing : FamilyEditForm := { wForm with name := none }

/-- Concrete valid student-edit form used by the action witnesses. -/
def wStudentForm : StudentEditForm :=
  { intent := some "edit"
    first_name := some "Kim"
    last_name := some "Doe"
    gender := some "F"
    birth_date := some "2015-01-01"
    cell_phone := none
    email := none
    t_shirt_size := some "YM"
    school := some "Oak Bay"
    grade_level := none
    special_needs := none
    allergies := none
    medications := none
    immunizations_up_to_date := some "on"
    immunization_notes := none }

theorem insertSorted_perm (le : α → α → Bool) (x : α) (l : List α) :
    (insertSorted le x l).Perm (x :: l) := by
  induction l with
  | nil => exact List.Perm.refl _
  | cons y ys ih =>
    simp only [insertSorted]
    by_cases h : le x y
    · simp [h]
    · simp only [h]
      simp only [Bool.false_eq_true, if_false]
      exact (List.Perm.cons y ih).trans (List.Perm.swap x y ys)

theorem sortBy_perm (le : α → α → Bool) (l : List α) : (sortBy le l).Perm l := by
  induction l with
  | nil => exact List.Perm.refl _
  | cons x xs ih =>
    simp only [sortBy]
    exact (insertSorted_perm le x (sortBy le xs)).trans (List.Perm.cons x ih)

theorem computeStudentDetails_mem (env : EligEnv) (links : List PaymentStudentRow)
    (info : IndividualSessionInfo) :
    ∀ (students : List StudentRow) (ds : List StudentPaymentDetail) (tr : List QueryTag),
      computeStudentDetails env links info students = (Except.ok ds, tr) →
      ∀ d ∈ ds, ∃ s, s ∈ students ∧ ∃ elig,
        env.eligibility s.id = Except.ok elig ∧
        d = mkStudentDetail env.pricingMonthly links info s elig := by
  intro students
  induction students with
  | nil =>
    intro ds tr h d hd
    simp only [computeStudentDetails, Prod.mk.injEq, Except.ok.injEq] at h
    obtain ⟨h1, -⟩ := h
    subst h1
    simp at hd
  | cons s rest ih =>
    intro ds tr h d hd
    simp only [computeStudentDetails] at h
    split at h
    · simp at h
    · rename_i elig helig
      split at h
      · rename_i ds2 tr2 hrec
        simp only [Prod.mk.injEq, Except.ok.injEq] at h
        obtain ⟨h1, -⟩ := h
        subst h1
        rcases List.mem_cons.mp hd with hd1 | hd2
        · exact ⟨s, List.mem_cons_self s rest, elig, helig, hd1⟩
        · obtain ⟨s2, hs2, elig2, he2, hde⟩ := ih ds2 tr2 hrec d hd2
          exact ⟨s2, List.mem_cons_of_mem s hs2, elig2, he2, hde⟩
      · simp at h

theorem eligibilityTail_details_mem (familyId : String) (env : EligEnv)
    (familyName : String) (students : List StudentRow)
    (links : List PaymentStudentRow) (tracePrefix : List QueryTag)
    (d : StudentPaymentDetail)
    (hd : d ∈ (eligibilityTail familyId env familyName students links
                 tracePrefix).1.studentPaymentDetails) :
    ∃ s, s ∈ students ∧ ∃ elig,
      env.eligibility s.id = Except.ok elig ∧
      d = mkStudentDetail env.pricingMonthly links
            (getFamilyIndividualSessions familyId env) s elig := by
  simp only [eligibilityTail] at hd
  rcases hres : computeStudentDetails env links (getFamilyIndividualSessions familyId env)
      students with ⟨ex, tr2⟩
  rw [hres] at hd
  cases ex with
  | error e => simp [eligibilityError] at hd
  | ok ds =>
    have hds : d ∈ ds := by
      rcases hdisc : env.discountsFetch with _ | m | m <;> rw [hdisc] at hd
      · simpa using hd
      · simpa using hd
      · simp [eligibilityError] at hd
    exact computeStudentDetails_mem env links (getFamilyIndividualSessions familyId env)
      students ds tr2 hres d hds

theorem getFamilyPaymentEligibilityData_details_mem (familyId : String)
    (env : EligEnv) (d : StudentPaymentDetail)
    (hd : d ∈ (getFamilyPaymentEligibilityData familyId env).1.studentPaymentDetails) :
    ∃ s, s ∈ studentsOf env.db familyId ∧ ∃ elig,
      env.eligibility s.id = Except.ok elig ∧
      d = mkStudentDetail env.pricingMonthly (fetchedLinks env.db familyId)
            (getFamilyIndividualSessions familyId env) s elig := by
  simp only [getFamilyPaymentEligibilityData] at hd
  rcases h1 : env.familyFetch with _ | m | m
  rotate_left
  · rw [h1] at hd
    simp [eligibilityError] at hd
  · rw [h1] at hd
    simp [eligibilityError] at hd
  rw [h1] at hd
  rcases h2 : List.filter (fun f => f.id == familyId) env.db.families with _ | ⟨fam, rest⟩
  · rw [h2] at hd
    simp [eligibilityError] at hd
  rcases rest with _ | ⟨fam2, rest2⟩
  rotate_left
  · rw [h2] at hd
    simp [eligibilityError] at hd
  rw [h2] at hd
  rcases h3 : env.studentsFetch with _ | m | m
  rotate_left
  · rw [h3] at hd
    simp [eligibilityError] at hd
  · rw [h3] at hd
    simp [eligibilityError] at hd
  rw [h3] at hd
  simp only at hd
  cases hEmpty : (studentsOf env.db familyId).length == 0 with
  | true =>
    rw [hEmpty] at hd
    simp [eligibilityError] at hd
  | false =>
    rw [hEmpty] at hd
    simp only [Bool.false_eq_true, if_false] at hd
    rcases h4 : env.paymentsFetch with _ | m | m
    rotate_left
    · rw [h4] at hd
      simp [eligibilityError] at hd
    · rw [h4] at hd
      simp [eligibilityError] at hd
    rw [h4] at hd
    by_cases hids : 0 < (successfulPaymentIds env.db familyId).length
    · rw [if_pos hids] at hd
      rcases h5 : env.linksFetch with _ | m | m
      rotate_left
      · rw [h5] at hd
        simp [eligibilityError] at hd
      · rw [h5] at hd
        simp [eligibilityError] at hd
      rw [h5] at hd
      exact eligibilityTail_details_mem _ _ _ _ _ _ d hd
    · rw [if_neg hids] at hd
      have hfl : fetchedLinks env.db familyId = [] := by
        unfold fetchedLinks
        rw [if_neg hids]
      rw [← hfl] at hd
      exact eligibilityTail_details_mem _ _ _ _ _ _ d hd

/-- C1: for every student detail produced by getFamilyPaymentEligibilityData,
needsPayment is true exactly when the computed eligibility reason is Trial or
Expired, and false for every other reason. -/
theorem needsPayment_iff_trial_or_expired (familyId : String) (env : EligEnv)
    (d : StudentPaymentDetail)
    (hd : d ∈ (getFamilyPaymentEligibilityData familyId env).1.studentPaymentDetails) :
    d.needsPayment = true ↔
      (d.eligibility.reason = "Trial" ∨ d.eligibility.reason = "Expired") := by
  obtain ⟨s, -, elig, -, rfl⟩ :=
    getFamilyPaymentEligibilityData_details_mem familyId env d hd
  simp [mkStudentDetail]

/-- Symmetry of boolean string equality. -/
theorem beq_swap (a b : String) : (a == b) = (b == a) := by
  cases h : a == b
  · cases h2 : b == a
    · rfl
    · rw [beq_iff_eq] at h2
      subst h2
      rw [beq_self_eq_true] at h
      exact h.symm
  · rw [beq_iff_eq] at h
    subst h
    rw [beq_self_eq_true]

theorem successfulPaymentIds_contains (db : Db) (familyId pid : String) :
    (successfulPaymentIds db familyId).contains pid =
      db.payments.any (fun p =>
        p.id == pid && p.family_id == familyId && p.status == "succeeded") := by
  unfold successfulPaymentIds
  induction db.payments with
  | nil => rfl
  | cons p ps ih =>
    simp only [List.filter_cons, List.any_cons]
    cases hfam : (p.family_id == familyId) with
    | true =>
      cases hstat : (p.status == "succeeded") with
      | true =>
        simp only [hfam, hstat, Bool.and_self, if_true, List.map_cons, List.contains_cons,
          Bool.and_true, beq_swap pid p.id, ih]
      | false =>
        simp only [hfam, hstat, Bool.and_true, Bool.and_false, Bool.false_eq_true, if_false,
          Bool.false_or, ih]
    | false =>
      simp only [hfam, Bool.false_and, Bool.and_false, Bool.false_eq_true, if_false,
        Bool.false_or, ih]

theorem fetchedLinks_count (db : Db) (familyId sid : String) :
    ((fetchedLinks db familyId).filter (fun link => link.student_id == sid)).length =
      specSucceededLinkCount db familyId sid := by
  unfold fetchedLinks specSucceededLinkCount
  by_cases hids : 0 < (successfulPaymentIds db familyId).length
  · rw [if_pos hids, List.filter_filter]
    congr 1
    apply List.filter_congr
    intro link hlink
    rw [successfulPaymentIds_contains db familyId link.payment_id]
  · rw [if_neg hids]
    have hnil : successfulPaymentIds db familyId = [] := by
      cases h : successfulPaymentIds db familyId with
      | nil => rfl
      | cons a l => rw [h] at hids; simp at hids
    have hflt : db.payments.filter
        (fun p => p.family_id == familyId && p.status == "succeeded") = [] := by
      unfold successfulPaymentIds at hnil
      exact List.map_eq_nil_iff.mp hnil
    have hpred := List.filter_eq_nil_iff.mp hflt
    have hrhs : db.payment_students.filter (fun link =>
        link.student_id == sid &&
        db.payments.any (fun p =>
          p.id == link.payment_id && p.family_id == familyId &&
            p.status == "succeeded")) = [] := by
      apply List.filter_eq_nil_iff.mpr
      intro link hlink hcond
      simp only [Bool.and_eq_true, List.any_eq_true] at hcond
      obtain ⟨-, p, hp, hfp⟩ := hcond
      have hnp := hpred p hp
      simp only [Bool.and_eq_true] at hfp hnp
      exact hnp ⟨hfp.1.2, hfp.2⟩
    simp [hrhs]

/-- C2: for every student detail produced by getFamilyPaymentEligibilityData,
pastPaymentCount equals the number of payment_students rows for that student
whose payment belongs to the family and has status succeeded; payments in any
other status contribute nothing. -/
theorem pastPaymentCount_eq_succeeded_links (familyId : String) (env : EligEnv)
    (d : StudentPaymentDetail)
    (hd : d ∈ (getFamilyPaymentEligibilityData familyId env).1.studentPaymentDetails) :
    d.pastPaymentCount = specSucceededLinkCount env.db familyId d.studentId := by
  obtain ⟨s, -, elig, -, rfl⟩ :=
    getFamilyPaymentEligibilityData_details_mem familyId env d hd
  simp only [mkStudentDetail]
  exact fetchedLinks_count env.db familyId s.id

/-- Witness for C1 at a concrete family whose student is on a trial. -/
theorem needsPayment_iff_trial_or_expired_witness :
    wDetail.needsPayment = true ↔
      (wDetail.eligibility.reason = "Trial" ∨ wDetail.eligibility.reason = "Expired") :=
  needsPayment_iff_trial_or_expired "f1" wEnv wDetail (by decide)

/-- Witness for C2 at a concrete family with one succeeded and one failed
payment. -/
theorem pastPaymentCount_eq_succeeded_links_witness :
    wDetail.pastPaymentCount = specSucceededLinkCount wDb "f1" wDetail.studentId :=
  pastPaymentCount_eq_succeeded_links "f1" wEnv wDetail (by decide)

theorem computeStudentDetails_trace_eligibilityQ (env : EligEnv)
    (links : List PaymentStudentRow) (info : IndividualSessionInfo) :
    ∀ (students : List StudentRow) (q : QueryTag),
      q ∈ (computeStudentDetails env links info students).2 →
      ∃ sid, q = QueryTag.eligibilityQ sid := by
  intro students
  induction students with
  | nil =>
    intro q hq
    simp [computeStudentDetails] at hq
  | cons s rest ih =>
    intro q hq
    simp only [computeStudentDetails] at hq
    rcases helig : env.eligibility s.id with e | elig <;> rw [helig] at hq
    · simp at hq
      exact ⟨s.id, hq⟩
    · rcases hrec : computeStudentDetails env links info rest with ⟨ex, tr⟩
      rw [hrec] at hq
      cases ex with
      | ok ds =>
        simp only at hq
        rcases List.mem_cons.mp hq with h1 | h2
        · exact ⟨s.id, h1⟩
        · exact ih q (by rw [hrec]; exact h2)
      | error e =>
        simp only at hq
        rcases List.mem_cons.mp hq with h1 | h2
        · exact ⟨s.id, h1⟩
        · exact ih q (by rw [hrec]; exact h2)

theorem computeStudentDetails_ok (env : EligEnv) (links : List PaymentStudentRow)
    (info : IndividualSessionInfo) :
    ∀ students : List StudentRow,
      (∀ s ∈ students, ∃ elig, env.eligibility s.id = Except.ok elig) →
      ∃ ds tr, computeStudentDetails env links info students = (Except.ok ds, tr) := by
  intro students
  induction students with
  | nil =>
    intro _
    exact ⟨[], [], rfl⟩
  | cons s rest ih =>
    intro h
    obtain ⟨elig, he⟩ := h s (List.mem_cons_self s rest)
    obtain ⟨ds, tr, hrec⟩ := ih (fun s2 hs2 => h s2 (List.mem_cons_of_mem s hs2))
    refine ⟨mkStudentDetail env.pricingMonthly links info s elig :: ds,
      QueryTag.eligibilityQ s.id :: tr, ?_⟩
    simp only [computeStudentDetails, he, hrec]

theorem eligibilityTail_loop_error (familyId : String) (env : EligEnv)
    (familyName : String) (students : List StudentRow)
    (links : List PaymentStudentRow) (tracePrefix : List QueryTag)
    (s : StudentRow) (rest : List StudentRow) (hs : students = s :: rest)
    (e : String) (he : env.eligibility s.id = Except.error e) :
    (eligibilityTail familyId env familyName students links tracePrefix).1 =
      eligibilityError familyId none
        "An unexpected error occurred while loading payment information." := by
  subst hs
  simp only [eligibilityTail, computeStudentDetails, he]

theorem eligibilityTail_discounts_exn (familyId : String) (env : EligEnv)
    (familyName : String) (students : List StudentRow)
    (links : List PaymentStudentRow) (tracePrefix : List QueryTag)
    (hall : ∀ s ∈ students, ∃ elig, env.eligibility s.id = Except.ok elig)
    (m : String) (hdisc : env.discountsFetch = Fetch.exn m) :
    (eligibilityTail familyId env familyName students links tracePrefix).1 =
      eligibilityError familyId none
        "An unexpected error occurred while loading payment information." := by
  obtain ⟨ds, tr, hok⟩ := computeStudentDetails_ok env links
    (getFamilyIndividualSessions familyId env) students hall
  simp only [eligibilityTail, hok, hdisc]

theorem eligibilityTail_count_le (familyId : String) (env : EligEnv)
    (familyName : String) (students : List StudentRow)
    (links : List PaymentStudentRow) (tracePrefix : List QueryTag) (q : QueryTag)
    (hq : ∀ sid, q ≠ QueryTag.eligibilityQ sid) :
    (eligibilityTail familyId env familyName students links tracePrefix).2.count q ≤
      (tracePrefix ++ [QueryTag.sessionsQ, QueryTag.discountsQ]).count q := by
  rcases hres : computeStudentDetails env links
      (getFamilyIndividualSessions familyId env) students with ⟨ex, tr⟩
  have htr : tr.count q = 0 := by
    rw [List.count_eq_zero]
    intro hmem
    obtain ⟨sid, hsid⟩ := computeStudentDetails_trace_eligibilityQ env links
      (getFamilyIndividualSessions familyId env) students q (by rw [hres]; exact hmem)
    exact (hq sid) hsid
  have hsplit : ([QueryTag.sessionsQ, QueryTag.discountsQ] : List QueryTag) =
      [QueryTag.sessionsQ] ++ [QueryTag.discountsQ] := rfl
  simp only [eligibilityTail, hres]
  cases ex with
  | error e =>
    simp only [List.count_append, hsplit, htr]
    omega
  | ok ds =>
    rcases hdisc : env.discountsFetch with _ | m | m <;>
      simp only [List.count_append, hsplit, htr] <;> omega

theorem eligibilityFailure_shape (familyId : String) (env : EligEnv)
    (h : eligibilityRunFailure familyId env) :
    errorResultShape (getFamilyPaymentEligibilityData familyId env).1 := by
  have hshape : ∀ fn msg, msg ≠ "" → errorResultShape (eligibilityError familyId fn msg) :=
    fun fn msg hm => ⟨⟨msg, rfl, hm⟩, rfl, rfl⟩
  have hcatch : errorResultShape (eligibilityError familyId none
      "An unexpected error occurred while loading payment information.") :=
    hshape none "An unexpected error occurred while loading payment information." (by decide)
  have hfamErr : errorResultShape (eligibilityError familyId none
      "Could not load family details.") :=
    hshape none "Could not load family details." (by decide)
  rcases h with ⟨m, hm⟩ | ⟨hf, m, hm⟩ | ⟨hf, hs, m, hm⟩ | ⟨hf, hs, hp, hids, m, hm⟩ |
    ⟨hf, hs, hp, hl, s, rest, hsr, e, he⟩ | ⟨hf, hs, hp, hl, hall, m, hdisc⟩
  · simp only [getFamilyPaymentEligibilityData]
    rcases hm with hm | hm <;> rw [hm]
    · exact hfamErr
    · exact hcatch
  · simp only [getFamilyPaymentEligibilityData]
    rw [hf]
    rcases h2 : List.filter (fun f => f.id == familyId) env.db.families with _ | ⟨fam, rest2⟩
    · rw [h2]
      exact hfamErr
    · rcases rest2 with _ | ⟨fam2, rest3⟩
      · rw [h2]
        rcases hm with hm | hm <;> rw [hm]
        · exact hshape (some fam.name) "Could not load student information." (by decide)
        · exact hcatch
      · rw [h2]
        exact hfamErr
  · simp only [getFamilyPaymentEligibilityData]
    rw [hf]
    rcases h2 : List.filter (fun f => f.id == familyId) env.db.families with _ | ⟨fam, rest2⟩
    · rw [h2]
      exact hfamErr
    · rcases rest2 with _ | ⟨fam2, rest3⟩
      · rw [h2, hs]
        cases hemp : ((studentsOf env.db familyId).length == 0) with
        | true => exact hshape (some fam.name) "No students found in this family." (by decide)
        | false =>
          rcases hm with hm | hm <;> rw [hm]
          · exact hshape (some fam.name) "Could not load payment history." (by decide)
          · exact hcatch
      · rw [h2]
        exact hfamErr
  · simp only [getFamilyPaymentEligibilityData]
    rw [hf]
    rcases h2 : List.filter (fun f => f.id == familyId) env.db.families with _ | ⟨fam, rest2⟩
    · rw [h2]
      exact hfamErr
    · rcases rest2 with _ | ⟨fam2, rest3⟩
      · rw [h2, hs]
        cases hemp : ((studentsOf env.db familyId).length == 0) with
        | true => exact hshape (some fam.name) "No students found in this family." (by decide)
        | false =>
          simp only [Bool.false_eq_true, if_false]
          rw [hp, if_pos hids]
          rcases hm with hm | hm <;> rw [hm]
          · exact hshape (some fam.name) "Could not load payment link history." (by decide)
          · exact hcatch
      · rw [h2]
        exact hfamErr
  · simp only [getFamilyPaymentEligibilityData]
    rw [hf]
    rcases h2 : List.filter (fun f => f.id == familyId) env.db.families with _ | ⟨fam, rest2⟩
    · rw [h2]
      exact hfamErr
    · rcases rest2 with _ | ⟨fam2, rest3⟩
      · rw [h2, hs]
        have hemp : ((studentsOf env.db familyId).length == 0) = false := by
          rw [hsr]
          rfl
        rw [hemp]
        simp only [Bool.false_eq_true, if_false]
        rw [hp]
        by_cases hids : 0 < (successfulPaymentIds env.db familyId).length
        · rw [if_pos hids, hl hids,
            eligibilityTail_loop_error familyId env fam.name (studentsOf env.db familyId)
              (fetchedLinks env.db familyId) _ s rest hsr e he]
          exact hcatch
        · rw [if_neg hids,
            eligibilityTail_loop_error familyId env fam.name (studentsOf env.db familyId)
              [] _ s rest hsr e he]
          exact hcatch
      · rw [h2]
        exact hfamErr
  · simp only [getFamilyPaymentEligibilityData]
    rw [hf]
    rcases h2 : List.filter (fun f => f.id == familyId) env.db.families with _ | ⟨fam, rest2⟩
    · rw [h2]
      exact hfamErr
    · rcases rest2 with _ | ⟨fam2, rest3⟩
      · rw [h2, hs]
        cases hemp : ((studentsOf env.db familyId).length == 0) with
        | true => exact hshape (some fam.name) "No students found in this family." (by decide)
        | false =>
          simp only [Bool.false_eq_true, if_false]
          rw [hp]
          by_cases hids : 0 < (successfulPaymentIds env.db familyId).length
          · rw [if_pos hids, hl hids,
              eligibilityTail_discounts_exn familyId env fam.name
                (studentsOf env.db familyId) (fetchedLinks env.db familyId) _ hall m hdisc]
            exact hcatch
          · rw [if_neg hids,
              eligibilityTail_discounts_exn familyId env fam.name
                (studentsOf env.db familyId) [] _ hall m hdisc]
            exact hcatch
      · rw [h2]
        exact hfamErr

theorem eligibilityTrace_count_le_one (familyId : String) (env : EligEnv) (q : QueryTag)
    (hq : ∀ sid, q ≠ QueryTag.eligibilityQ sid) :
    (getFamilyPaymentEligibilityData familyId env).2.count q ≤ 1 := by
  simp only [getFamilyPaymentEligibilityData]
  cases h1 : env.familyFetch with
  | dbErr m =>
    show List.count q [QueryTag.familyQ] ≤ 1
    cases q <;> first | exact absurd rfl (hq _) | decide
  | exn m =>
    show List.count q [QueryTag.familyQ] ≤ 1
    cases q <;> first | exact absurd rfl (hq _) | decide
  | ok =>
    rcases h2 : List.filter (fun f => f.id == familyId) env.db.families with _ | ⟨fam, rest2⟩
    · rw [h2]
      show List.count q [QueryTag.familyQ] ≤ 1
      cases q <;> first | exact absurd rfl (hq _) | decide
    · rcases rest2 with _ | ⟨fam2, rest3⟩
      · rw [h2]
        cases h3 : env.studentsFetch with
        | dbErr m =>
          show List.count q [QueryTag.familyQ, QueryTag.studentsQ] ≤ 1
          cases q <;> first | exact absurd rfl (hq _) | decide
        | exn m =>
          show List.count q [QueryTag.familyQ, QueryTag.studentsQ] ≤ 1
          cases q <;> first | exact absurd rfl (hq _) | decide
        | ok =>
          cases hemp : ((studentsOf env.db familyId).length == 0) with
          | true =>
            show List.count q [QueryTag.familyQ, QueryTag.studentsQ] ≤ 1
            cases q <;> first | exact absurd rfl (hq _) | decide
          | false =>
            simp only [Bool.false_eq_true, if_false]
            cases h4 : env.paymentsFetch with
            | dbErr m =>
              show List.count q [QueryTag.familyQ, QueryTag.studentsQ, QueryTag.paymentsQ] ≤ 1
              cases q <;> first | exact absurd rfl (hq _) | decide
            | exn m =>
              show List.count q [QueryTag.familyQ, QueryTag.studentsQ, QueryTag.paymentsQ] ≤ 1
              cases q <;> first | exact absurd rfl (hq _) | decide
            | ok =>
              by_cases hids : 0 < (successfulPaymentIds env.db familyId).length
              · rw [if_pos hids]
                cases h5 : env.linksFetch with
                | dbErr m =>
                  show List.count q [QueryTag.familyQ, QueryTag.studentsQ,
                    QueryTag.paymentsQ, QueryTag.linksQ] ≤ 1
                  cases q <;> first | exact absurd rfl (hq _) | decide
                | exn m =>
                  show List.count q [QueryTag.familyQ, QueryTag.studentsQ,
                    QueryTag.paymentsQ, QueryTag.linksQ] ≤ 1
                  cases q <;> first | exact absurd rfl (hq _) | decide
                | ok =>
                  refine le_trans (eligibilityTail_count_le familyId env fam.name
                    (studentsOf env.db familyId) (fetchedLinks env.db familyId)
                    [QueryTag.familyQ, QueryTag.studentsQ, QueryTag.paymentsQ, QueryTag.linksQ]
                    q hq) ?_
                  cases q <;> first | exact absurd rfl (hq _) | decide
              · rw [if_neg hids]
                refine le_trans (eligibilityTail_count_le familyId env fam.name
                  (studentsOf env.db familyId) []
                  [QueryTag.familyQ, QueryTag.studentsQ, QueryTag.paymentsQ] q hq) ?_
                cases q <;> first | exact absurd rfl (hq _) | decide
      · rw [h2]
        show List.count q [QueryTag.familyQ] ≤ 1
        cases q <;> first | exact absurd rfl (hq _) | decide

/-- C3: whenever a run of getFamilyPaymentEligibilityData hits a failing
read (family name, students, payments, payment links) or a thrown exception,
the function (which is total, hence never throws) returns an object whose
error string is non-empty, whose studentPaymentDetails list is empty, and
whose hasAvailableDiscounts is false; moreover no run ever issues any of
those reads twice (no retry). -/
theorem eligibility_failures_return_error_object (familyId : String) (env : EligEnv) :
    (eligibilityRunFailure familyId env →
       errorResultShape (getFamilyPaymentEligibilityData familyId env).1) ∧
    (getFamilyPaymentEligibilityData familyId env).2.count QueryTag.familyQ ≤ 1 ∧
    (getFamilyPaymentEligibilityData familyId env).2.count QueryTag.studentsQ ≤ 1 ∧
    (getFamilyPaymentEligibilityData familyId env).2.count QueryTag.paymentsQ ≤ 1 ∧
    (getFamilyPaymentEligibilityData familyId env).2.count QueryTag.linksQ ≤ 1 :=
  ⟨eligibilityFailure_shape familyId env,
   eligibilityTrace_count_le_one familyId env QueryTag.familyQ
     (fun _ h => QueryTag.noConfusion h),
   eligibilityTrace_count_le_one familyId env QueryTag.studentsQ
     (fun _ h => QueryTag.noConfusion h),
   eligibilityTrace_count_le_one familyId env QueryTag.paymentsQ
     (fun _ h => QueryTag.noConfusion h),
   eligibilityTrace_count_le_one familyId env QueryTag.linksQ
     (fun _ h => QueryTag.noConfusion h)⟩

/-- Witness for C3: with the family read failing, the service returns an
object of the error shape. -/
theorem eligibility_failures_return_error_object_witness :
    errorResultShape (getFamilyPaymentEligibilityData "f1" wEnvFamilyErr).1 :=
  (eligibility_failures_return_error_object "f1" wEnvFamilyErr).1
    (Or.inl ⟨"boom", Or.inl rfl⟩)

theorem foldl_add_map_sum (f : α → Int) (l : List α) (a : Int) :
    l.foldl (fun sum x => sum + f x) a = a + (l.map f).sum := by
  induction l generalizing a with
  | nil => simp
  | cons x xs ih => simp [ih, add_assoc]

theorem familySessionRows_map_sum (db : Db) (familyId : String) (f : SessionRow → Int) :
    ((familySessionRows db familyId).map f).sum =
      ((db.one_on_one_sessions.filter (fun s => s.family_id == familyId)).map f).sum :=
  List.Perm.sum_eq (List.Perm.map f (sortBy_perm _ _))

/-- C9: getFamilyIndividualSessions returns totalPurchased and totalRemaining
equal to the sums of quantity_purchased and quantity_remaining over the
fetched session rows of the family, and returns zeros with an empty purchase
list when the read reports an error or throws (the embedding is total, so it
never throws). -/
theorem getFamilyIndividualSessions_totals (familyId : String) (env : EligEnv) :
    (env.sessionsFetch = Fetch.ok →
      (getFamilyIndividualSessions familyId env).totalPurchased =
        ((env.db.one_on_one_sessions.filter (fun s => s.family_id == familyId)).map
          (fun s => s.quantity_purchased)).sum ∧
      (getFamilyIndividualSessions familyId env).totalRemaining =
        ((env.db.one_on_one_sessions.filter (fun s => s.family_id == familyId)).map
          (fun s => s.quantity_remaining)).sum) ∧
    (∀ m, env.sessionsFetch = Fetch.dbErr m ∨ env.sessionsFetch = Fetch.exn m →
      getFamilyIndividualSessions familyId env =
        { totalPurchased := 0, totalRemaining := 0, purchases := [] }) := by
  constructor
  · intro hok
    simp only [getFamilyIndividualSessions, hok]
    constructor
    · rw [foldl_add_map_sum, zero_add, List.map_map]
      exact familySessionRows_map_sum env.db familyId _
    · rw [foldl_add_map_sum, zero_add, List.map_map]
      exact familySessionRows_map_sum env.db familyId _
  · intro m hm
    rcases hm with hm | hm <;> simp [getFamilyIndividualSessions, hm]

/-- Witness for C9: in the all-ok witness environment the totals are the
sums over the fetched rows. -/
theorem getFamilyIndividualSessions_totals_witness :
    (getFamilyIndividualSessions "f1" wEnv).totalPurchased =
      ((wDb.one_on_one_sessions.filter (fun s => s.family_id == "f1")).map
        (fun s => s.quantity_purchased)).sum ∧
    (getFamilyIndividualSessions "f1" wEnv).totalRemaining =
      ((wDb.one_on_one_sessions.filter (fun s => s.family_id == "f1")).map
        (fun s => s.quantity_remaining)).sum :=
  (getFamilyIndividualSessions_totals "f1" wEnv).1 rfl

/-- C10: checkProgramEligibility is total (never throws), eligible holds
exactly when the reasons list is empty, a truthy rpc result yields eligible
with no reasons, and a falsy result, reported error, or exception yields
ineligible with a non-empty (one-element) reasons list. -/
theorem checkProgramEligibility_invariant (programId studentId : String)
    (o : RpcOutcome) :
    ((checkProgramEligibility programId studentId o).eligible = true ↔
      (checkProgramEligibility programId studentId o).reasons = []) ∧
    (o = RpcOutcome.ok (some true) →
      checkProgramEligibility programId studentId o =
        { eligible := true, reasons := [] }) ∧
    (∀ d, o = RpcOutcome.ok d → d ≠ some true →
      (checkProgramEligibility programId studentId o).eligible = false ∧
      (checkProgramEligibility programId studentId o).reasons ≠ []) ∧
    (∀ m, o = RpcOutcome.dbErr m →
      checkProgramEligibility programId studentId o =
        { eligible := false, reasons := ["Error checking eligibility"] }) ∧
    (∀ m, o = RpcOutcome.exn m →
      checkProgramEligibility programId studentId o =
        { eligible := false, reasons := ["System error checking eligibility"] }) := by
  refine ⟨?_, ?_, ?_, ?_, ?_⟩
  · rcases o with ⟨_ | ⟨_ | _⟩⟩ | m | m <;> simp [checkProgramEligibility]
  · intro h
    subst h
    simp [checkProgramEligibility]
  · intro d hd hne
    subst hd
    cases d with
    | none => simp [checkProgramEligibility]
    | some b =>
      cases b with
      | true => exact absurd rfl hne
      | false => simp [checkProgramEligibility]
  · intro m2 hm
    subst hm
    simp [checkProgramEligibility]
  · intro m2 hm
    subst hm
    simp [checkProgramEligibility]

/-- Witness for C10: a truthy rpc result yields eligible with no reasons. -/
theorem checkProgramEligibility_invariant_witness :
    checkProgramEligibility "prog1" "stud1" (RpcOutcome.ok (some true)) =
      { eligible := true, reasons := [] } :=
  (checkProgramEligibility_invariant "prog1" "stud1" (RpcOutcome.ok (some true))).2.1 rfl

/-- Counterexample to C4 as stated: a reported database error in
createProgram, updateProgram, and getPrograms is not caught and converted
into a returned default object; each function rethrows it (Except.error in
the embedding), so the error propagates to the caller. -/
theorem programService_error_not_caught_counterexample :
    (createProgram cProgramData "id1" "t0" (Fetch.dbErr "boom") []).1 =
      Except.error "Failed to create program: boom" ∧
    (updateProgram "p1" {} "t0" (Fetch.dbErr "boom") []).1 =
      Except.error "Failed to update program: boom" ∧
    getPrograms none none (Fetch.dbErr "boom") [] =
      Except.error "Failed to fetch programs: boom" := by
  refine ⟨rfl, rfl, rfl⟩

/-- C4 amended: a reported database error in createProgram, updateProgram,
getPrograms, or getProgramById (for errors other than not-found) is
propagated to the caller as a thrown exception wrapping the database
message, leaving the stored rows unchanged; it is not caught and converted
into a returned default object (only checkProgramEligibility does that). -/
theorem programService_db_error_propagates (m : String) (pd : CreateProgramData)
    (newId createdAt id now : String) (updates : UpdateProgramData)
    (is_active_filter : Option Bool) (search : Option String)
    (db : List ProgramRow) :
    createProgram pd newId createdAt (Fetch.dbErr m) db =
      (Except.error ("Failed to create program: " ++ m), db) ∧
    updateProgram id updates now (Fetch.dbErr m) db =
      (Except.error ("Failed to update program: " ++ m), db) ∧
    getPrograms is_active_filter search (Fetch.dbErr m) db =
      Except.error ("Failed to fetch programs: " ++ m) ∧
    getProgramById id (Fetch.dbErr m) db =
      Except.error ("Failed to fetch program: " ++ m) :=
  ⟨rfl, rfl, rfl, rfl⟩

/-- C8: the update payload updateProgram builds and applies contains exactly
the provided fields plus updated_at: updated_at is always set to the clock,
every provided field overwrites the stored column with the given value, and
every omitted field leaves the stored column unchanged. -/
theorem updateProgram_payload_frame (updates : UpdateProgramData) (now : String)
    (r : ProgramRow) :
    (applyProgramUpdatePayload (buildProgramUpdatePayload updates now) r).updated_at = now ∧
    (updates.name = none → (applyProgramUpdatePayload (buildProgramUpdatePayload updates now) r).name = r.name) ∧
    (∀ v, updates.name = some v → (applyProgramUpdatePayload (buildProgramUpdatePayload updates now) r).name = v) ∧
    (updates.description = none → (applyProgramUpdatePayload (buildProgramUpdatePayload updates now) r).description = r.description) ∧
    (∀ v, updates.description = some v → (applyProgramUpdatePayload (buildProgramUpdatePayload updates now) r).description = v) ∧
    (updates.duration_minutes = none → (applyProgramUpdatePayload (buildProgramUpdatePayload updates now) r).duration_minutes = r.duration_minutes) ∧
    (∀ v, updates.duration_minutes = some v → (applyProgramUpdatePayload (buildProgramUpdatePayload updates now) r).duration_minutes = v) ∧
    (updates.max_capacity = none → (applyProgramUpdatePayload (buildProgramUpdatePayload updates now) r).max_capacity = r.max_capacity) ∧
    (∀ v, updates.max_capacity = some v → (applyProgramUpdatePayload (buildProgramUpdatePayload updates now) r).max_capacity = v) ∧
    (updates.sessions_per_week = none → (applyProgramUpdatePayload (buildProgramUpdatePayload updates now) r).sessions_per_week = r.sessions_per_week) ∧
    (∀ v, updates.sessions_per_week = some v → (applyProgramUpdatePayload (buildProgramUpdatePayload updates now) r).sessions_per_week = v) ∧
    (updates.min_sessions_per_week = none → (applyProgramUpdatePayload (buildProgramUpdatePayload updates now) r).min_sessions_per_week = r.min_sessions_per_week) ∧
    (∀ v, updates.min_sessions_per_week = some v → (applyProgramUpdatePayload (buildProgramUpdatePayload updates now) r).min_sessions_per_week = v) ∧
    (updates.max_sessions_per_week = none → (applyProgramUpdatePayload (buildProgramUpdatePayload updates now) r).max_sessions_per_week = r.max_sessions_per_week) ∧
    (∀ v, updates.max_sessions_per_week = some v → (applyProgramUpdatePayload (buildProgramUpdatePayload updates now) r).max_sessions_per_week = v) ∧
    (updates.min_belt_rank = none → (applyProgramUpdatePayload (buildProgramUpdatePayload updates now) r).min_belt_rank = r.min_belt_rank) ∧
    (∀ v, updates.min_belt_rank = some v → (applyProgramUpdatePayload (buildProgramUpdatePayload updates now) r).min_belt_rank = v) ∧
    (updates.max_belt_rank = none → (applyProgramUpdatePayload (buildProgramUpdatePayload updates now) r).max_belt_rank = r.max_belt_rank) ∧
    (∀ v, updates.max_belt_rank = some v → (applyProgramUpdatePayload (buildProgramUpdatePayload updates now) r).max_belt_rank = v) ∧
    (updates.belt_rank_required = none → (applyProgramUpdatePayload (buildProgramUpdatePayload updates now) r).belt_rank_required = r.belt_rank_required) ∧
    (∀ v, updates.belt_rank_required = some v → (applyProgramUpdatePayload (buildProgramUpdatePayload updates now) r).belt_rank_required = v) ∧
    (updates.prerequisite_programs = none → (applyProgramUpdatePayload (buildProgramUpdatePayload updates now) r).prerequisite_programs = r.prerequisite_programs) ∧
    (∀ v, updates.prerequisite_programs = some v → (applyProgramUpdatePayload (buildProgramUpdatePayload updates now) r).prerequisite_programs = v) ∧
    (updates.min_age = none → (applyProgramUpdatePayload (buildProgramUpdatePayload updates now) r).min_age = r.min_age) ∧
    (∀ v, updates.min_age = some v → (applyProgramUpdatePayload (buildProgramUpdatePayload updates now) r).min_age = v) ∧
    (updates.max_age = none → (applyProgramUpdatePayload (buildProgramUpdatePayload updates now) r).max_age = r.max_age) ∧
    (∀ v, updates.max_age = some v → (applyProgramUpdatePayload (buildProgramUpdatePayload updates now) r).max_age = v) ∧
    (updates.gender_restriction = none → (applyProgramUpdatePayload (buildProgramUpdatePayload updates now) r).gender_restriction = r.gender_restriction) ∧
    (∀ v, updates.gender_restriction = some v → (applyProgramUpdatePayload (buildProgramUpdatePayload updates now) r).gender_restriction = v) ∧
    (updates.special_needs_support = none → (applyProgramUpdatePayload (buildProgramUpdatePayload updates now) r).special_needs_support = r.special_needs_support) ∧
    (∀ v, updates.special_needs_support = some v → (applyProgramUpdatePayload (buildProgramUpdatePayload updates now) r).special_needs_support = v) ∧
    (updates.monthly_fee = none → (applyProgramUpdatePayload (buildProgramUpdatePayload updates now) r).monthly_fee = r.monthly_fee) ∧
    (∀ v, updates.monthly_fee = some v → (applyProgramUpdatePayload (buildProgramUpdatePayload updates now) r).monthly_fee = v) ∧
    (updates.registration_fee = none → (applyProgramUpdatePayload (buildProgramUpdatePayload updates now) r).registration_fee = r.registration_fee) ∧
    (∀ v, updates.registration_fee = some v → (applyProgramUpdatePayload (buildProgramUpdatePayload updates now) r).registration_fee = v) ∧
    (updates.yearly_fee = none → (applyProgramUpdatePayload (buildProgramUpdatePayload updates now) r).yearly_fee = r.yearly_fee) ∧
    (∀ v, updates.yearly_fee = some v → (applyProgramUpdatePayload (buildProgramUpdatePayload updates now) r).yearly_fee = v) ∧
    (updates.individual_session_fee = none → (applyProgramUpdatePayload (buildProgramUpdatePayload updates now) r).individual_session_fee = r.individual_session_fee) ∧
    (∀ v, updates.individual_session_fee = some v → (applyProgramUpdatePayload (buildProgramUpdatePayload updates now) r).individual_session_fee = v) ∧
    (updates.is_active = none → (applyProgramUpdatePayload (buildProgramUpdatePayload updates now) r).is_active = r.is_active) ∧
    (∀ v, updates.is_active = some v → (applyProgramUpdatePayload (buildProgramUpdatePayload updates now) r).is_active = v) := by
  refine ⟨rfl, ?_, ?_, ?_, ?_, ?_, ?_, ?_, ?_, ?_, ?_, ?_, ?_, ?_, ?_, ?_, ?_, ?_, ?_, ?_, ?_, ?_, ?_, ?_, ?_, ?_, ?_, ?_, ?_, ?_, ?_, ?_, ?_, ?_, ?_, ?_, ?_, ?_, ?_, ?_, ?_⟩
  all_goals
    first
      | (intro h
         simp [applyProgramUpdatePayload, buildProgramUpdatePayload, h])
      | (intro v h
         simp [applyProgramUpdatePayload, buildProgramUpdatePayload, h])

/-- Witness for C8: with only the name provided, the payload sets the name
and leaves the description unchanged. -/
theorem updateProgram_payload_frame_witness :
    (applyProgramUpdatePayload (buildProgramUpdatePayload { name := some "N" } "t1")
        wProgram).name = "N" ∧
    (applyProgramUpdatePayload (buildProgramUpdatePayload { name := some "N" } "t1")
        wProgram).description = wProgram.description :=
  ⟨(updateProgram_payload_frame { name := some "N" } "t1" wProgram).2.2.1 "N" rfl,
   (updateProgram_payload_frame { name := some "N" } "t1" wProgram).2.2.2.1 rfl⟩

theorem optionGetD_idem (o : Option α) (x : α) : o.getD (o.getD x) = o.getD x := by
  cases o <;> rfl

theorem applyProgramUpdatePayload_id (p : ProgramUpdatePayload) (r : ProgramRow) :
    (applyProgramUpdatePayload p r).id = r.id := rfl

theorem applyProgramUpdatePayload_twice (u : UpdateProgramData) (t1 t2 : String)
    (r : ProgramRow) :
    applyProgramUpdatePayload (buildProgramUpdatePayload u t2)
        (applyProgramUpdatePayload (buildProgramUpdatePayload u t1) r) =
      { applyProgramUpdatePayload (buildProgramUpdatePayload u t1) r with
        updated_at := t2 } := by
  simp [applyProgramUpdatePayload, buildProgramUpdatePayload, optionGetD_idem]

theorem updateProgram_ok_snd (id : String) (u : UpdateProgramData) (t : String)
    (db : List ProgramRow) :
    (updateProgram id u t Fetch.ok db).2 =
      db.map (fun r => if r.id == id then
        applyProgramUpdatePayload (buildProgramUpdatePayload u t) r else r) := by
  simp only [updateProgram]
  split <;> rfl

theorem updateProgram_repeat_shifts_timestamp (id : String) (u : UpdateProgramData)
    (t1 t2 : String) (db : List ProgramRow) :
    (updateProgram id u t2 Fetch.ok (updateProgram id u t1 Fetch.ok db).2).2 =
      (updateProgram id u t1 Fetch.ok db).2.map
        (fun r => if r.id == id then { r with updated_at := t2 } else r) := by
  rw [updateProgram_ok_snd, updateProgram_ok_snd, List.map_map, List.map_map]
  apply List.map_congr_left
  intro r _
  simp only [Function.comp]
  cases hid : r.id == id with
  | false => simp [hid]
  | true =>
    simp only [hid, if_true]
    rw [if_pos (by rw [applyProgramUpdatePayload_id]; exact hid),
      if_pos (by rw [applyProgramUpdatePayload_id]; exact hid),
      applyProgramUpdatePayload_twice]

theorem updateProgram_repeat_same_time (id : String) (u : UpdateProgramData)
    (t : String) (db : List ProgramRow) :
    (updateProgram id u t Fetch.ok (updateProgram id u t Fetch.ok db).2).2 =
      (updateProgram id u t Fetch.ok db).2 := by
  rw [updateProgram_repeat_shifts_timestamp, updateProgram_ok_snd, List.map_map]
  apply List.map_congr_left
  intro r _
  simp only [Function.comp]
  cases hid : r.id == id with
  | false => simp [hid]
  | true =>
    simp only [hid, if_true]
    rw [if_pos (by rw [applyProgramUpdatePayload_id]; exact hid)]
    rfl

theorem familyUpdateApply_twice (familyId : String) (form : FamilyEditForm)
    (env env2 : ActionEnv) (f : FamilyRow) :
    familyUpdateApply familyId form env2 (familyUpdateApply familyId form env f) =
      if f.id == familyId then
        { familyUpdateApply familyId form env f with updated_at := env2.now }
      else f := by
  cases hid : f.id == familyId with
  | false => simp [familyUpdateApply, hid]
  | true => simp [familyUpdateApply, hid]

theorem familyUpdateApply_idem (familyId : String) (form : FamilyEditForm)
    (env : ActionEnv) (f : FamilyRow) :
    familyUpdateApply familyId form env (familyUpdateApply familyId form env f) =
      familyUpdateApply familyId form env f := by
  rw [familyUpdateApply_twice]
  cases hid : f.id == familyId with
  | false => simp [familyUpdateApply, hid]
  | true => simp [familyUpdateApply, hid]

theorem familyEditAction_repeat (familyId : String) (form : FamilyEditForm)
    (env : ActionEnv) (db : List FamilyRow) :
    (familyEditAction familyId form env (familyEditAction familyId form env db).2).2 =
      (familyEditAction familyId form env db).2 := by
  unfold familyEditAction
  by_cases hv : (familyFieldErrorsOf form).hasAny = true
  · simp [hv]
  · rw [Bool.not_eq_true] at hv
    by_cases hcfg : (isFalsy env.supabaseUrl || isFalsy env.supabaseServiceKey) = true
    · simp [hv, hcfg]
    · rw [Bool.not_eq_true] at hcfg
      cases hupd : env.updateError with
      | some m => simp [hv, hcfg, hupd]
      | none =>
        simp only [hv, hcfg, hupd, Bool.false_eq_true, if_false]
        rw [List.map_map]
        exact List.map_congr_left (fun f _ => familyUpdateApply_idem familyId form env f)

theorem familyEditAction_repeat_shifts_timestamp (familyId : String)
    (form : FamilyEditForm) (env : ActionEnv) (t2 : String) (db : List FamilyRow)
    (hv : (familyFieldErrorsOf form).hasAny = false)
    (hcfg : (isFalsy env.supabaseUrl || isFalsy env.supabaseServiceKey) = false)
    (hupd : env.updateError = none) :
    (familyEditAction familyId form { env with now := t2 }
        (familyEditAction familyId form env db).2).2 =
      (familyEditAction familyId form env db).2.map
        (fun f => if f.id == familyId then { f with updated_at := t2 } else f) := by
  simp only [familyEditAction, hv, hcfg, hupd, Bool.false_eq_true, if_false]
  rw [List.map_map, List.map_map]
  apply List.map_congr_left
  intro f _
  simp only [Function.comp]
  rw [familyUpdateApply_twice]
  cases hid : f.id == familyId with
  | false => simp [familyUpdateApply, hid]
  | true => simp [familyUpdateApply, hid]

/-- Counterexample to C7 as stated: repeating the identical updateProgram
call at a later clock time changes the stored record, because updated_at is
always rewritten to the time of the latest application. -/
theorem repeated_update_not_idempotent_counterexample :
    (updateProgram "p1" {} "t2" Fetch.ok
        (updateProgram "p1" {} "t1" Fetch.ok [wProgram]).2).2 ≠
      (updateProgram "p1" {} "t1" Fetch.ok [wProgram]).2 := by decide

/-- C7 amended: repeated identical update is idempotent on every stored
field except updated_at, which is set to the timestamp of the latest
application; when the repetition carries the same timestamp the stored
records are exactly unchanged.  This holds for updateProgram and for the
family-edit action (whose repetition with an unchanged clock is a no-op,
and with a new clock changes only updated_at of the matched rows). -/
theorem repeated_update_idempotent_except_updated_at :
    (∀ (id : String) (u : UpdateProgramData) (t : String) (db : List ProgramRow),
      (updateProgram id u t Fetch.ok (updateProgram id u t Fetch.ok db).2).2 =
        (updateProgram id u t Fetch.ok db).2) ∧
    (∀ (id : String) (u : UpdateProgramData) (t1 t2 : String) (db : List ProgramRow),
      (updateProgram id u t2 Fetch.ok (updateProgram id u t1 Fetch.ok db).2).2 =
        (updateProgram id u t1 Fetch.ok db).2.map
          (fun r => if r.id == id then { r with updated_at := t2 } else r)) ∧
    (∀ (familyId : String) (form : FamilyEditForm) (env : ActionEnv)
        (db : List FamilyRow),
      (familyEditAction familyId form env (familyEditAction familyId form env db).2).2 =
        (familyEditAction familyId form env db).2) ∧
    (∀ (familyId : String) (form : FamilyEditForm) (env : ActionEnv) (t2 : String)
        (db : List FamilyRow),
      (familyFieldErrorsOf form).hasAny = false →
      (isFalsy env.supabaseUrl || isFalsy env.supabaseServiceKey) = false →
      env.updateError = none →
      (familyEditAction familyId form { env with now := t2 }
          (familyEditAction familyId form env db).2).2 =
        (familyEditAction familyId form env db).2.map
          (fun f => if f.id == familyId then { f with updated_at := t2 } else f)) :=
  ⟨updateProgram_repeat_same_time, updateProgram_repeat_shifts_timestamp,
   familyEditAction_repeat, familyEditAction_repeat_shifts_timestamp⟩

/-- Witness for the amended C7: repeating the family edit at a later clock
time only rewrites updated_at of the matched row. -/
theorem repeated_update_idempotent_except_updated_at_witness :
    (familyEditAction "f1" wForm { wActionEnv with now := "t2" }
        (familyEditAction "f1" wForm wActionEnv [wFamily]).2).2 =
      (familyEditAction "f1" wForm wActionEnv [wFamily]).2.map
        (fun f => if f.id == "f1" then { f with updated_at := "t2" } else f) :=
  repeated_update_idempotent_except_updated_at.2.2.2 "f1" wForm wActionEnv "t2" [wFamily]
    (by decide) (by decide) rfl

/-- C6: a family-edit submission with any required field missing returns a
400 response with the error "Validation failed" carrying a field-specific
message for each missing required field, and performs no database update
(the stored families are unchanged). -/
theorem familyEditAction_missing_required_field (familyId : String)
    (form : FamilyEditForm) (env : ActionEnv) (db : List FamilyRow)
    (h : form.name = none ∨ form.email = none ∨ form.address = none ∨
         form.city = none ∨ form.province = none ∨ form.postal_code = none ∨
         form.primary_phone = none) :
    (familyEditAction familyId form env db).1 =
      FamilyActionResponse.jsonError 400 "Validation failed"
        (some (familyFieldErrorsOf form)) ∧
    (form.name = none →
      (familyFieldErrorsOf form).name = some "Family name is required.") ∧
    (form.email = none →
      (familyFieldErrorsOf form).email = some "Email is required.") ∧
    (form.address = none →
      (familyFieldErrorsOf form).address = some "Address is required.") ∧
    (form.city = none →
      (familyFieldErrorsOf form).city = some "City is required.") ∧
    (form.province = none →
      (familyFieldErrorsOf form).province = some "Province is required.") ∧
    (form.postal_code = none →
      (familyFieldErrorsOf form).postal_code = some "Postal code is required.") ∧
    (form.primary_phone = none →
      (familyFieldErrorsOf form).primary_phone = some "Primary phone is required.") ∧
    (familyEditAction familyId form env db).2 = db := by
  have hv : (familyFieldErrorsOf form).hasAny = true := by
    rcases h with h | h | h | h | h | h | h <;>
      simp [FamilyFieldErrors.hasAny, familyFieldErrorsOf, isFalsy, h]
  refine ⟨?_, ?_, ?_, ?_, ?_, ?_, ?_, ?_, ?_⟩
  · simp [familyEditAction, hv]
  · intro hn
    simp [familyFieldErrorsOf, isFalsy, hn]
  · intro hn
    simp [familyFieldErrorsOf, isFalsy, hn]
  · intro hn
    simp [familyFieldErrorsOf, isFalsy, hn]
  · intro hn
    simp [familyFieldErrorsOf, isFalsy, hn]
  · intro hn
    simp [familyFieldErrorsOf, isFalsy, hn]
  · intro hn
    simp [familyFieldErrorsOf, isFalsy, hn]
  · intro hn
    simp [familyFieldErrorsOf, isFalsy, hn]
  · simp [familyEditAction, hv]

/-- Witness for C6: a submission without a family name gets the 400
validation response with the name message, and the database is unchanged. -/
theorem familyEditAction_missing_required_field_witness :
    (familyEditAction "f1" wFormMissing wActionEnv [wFamily]).1 =
      FamilyActionResponse.jsonError 400 "Validation failed"
        (some (familyFieldErrorsOf wFormMissing)) ∧
    (familyFieldErrorsOf wFormMissing).name = some "Family name is required." ∧
    (familyEditAction "f1" wFormMissing wActionEnv [wFamily]).2 = [wFamily] := by
  have h := familyEditAction_missing_required_field "f1" wFormMissing wActionEnv
    [wFamily] (Or.inl rfl)
  exact ⟨h.1, h.2.1 rfl, h.2.2.2.2.2.2.2.2⟩

/-- Counterexample to C5 as stated: with an id that matches no stored row,
both update actions complete without an error response — the family action
redirects and the student action reports success — instead of rejecting the
request. -/
theorem nonexistent_id_update_succeeds_counterexample :
    (familyEditAction "missing" wForm wActionEnv []).1 =
      FamilyActionResponse.redirectTo "/admin/families/missing" ∧
    (adminStudentUpdateAction (some "missing") wStudentForm wActionEnv []).1 =
      StudentActionResponse.jsonSuccess "Student details updated successfully." := by
  refine ⟨by decide, by decide⟩

/-- C5 amended: for an id that identifies no stored row, the family-edit
and student-edit actions do not reject the request: the update statement
matches zero rows without reporting an error, so the family action
redirects and the student action returns success, leaving the stored rows
unchanged; error responses arise only from validation, configuration, or a
database-reported error. -/
theorem nonexistent_id_update_reports_success (familyId studentId : String)
    (form : FamilyEditForm) (sform : StudentEditForm) (env : ActionEnv)
    (fdb : List FamilyRow) (sdb : List StudentRow)
    (hv : (familyFieldErrorsOf form).hasAny = false)
    (hsv : sform.intent = some "edit")
    (hsv2 : (studentFieldErrorsOf sform).hasAny = false)
    (hcfg : (isFalsy env.supabaseUrl || isFalsy env.supabaseServiceKey) = false)
    (hupd : env.updateError = none)
    (hfid : ∀ f ∈ fdb, (f.id == familyId) = false)
    (hsid : ∀ s ∈ sdb, (s.id == studentId) = false) :
    familyEditAction familyId form env fdb =
      (FamilyActionResponse.redirectTo ("/admin/families/" ++ familyId), fdb) ∧
    adminStudentUpdateAction (some studentId) sform env sdb =
      (StudentActionResponse.jsonSuccess "Student details updated successfully.", sdb) := by
  constructor
  · have hmap : fdb.map (familyUpdateApply familyId form env) = fdb := by
      refine Eq.trans (List.map_congr_left ?_) (List.map_id fdb)
      intro f hf
      simp [familyUpdateApply, hfid f hf]
    simp [familyEditAction, hv, hcfg, hupd, hmap]
  · have hmap : sdb.map (studentUpdateApply studentId sform) = sdb := by
      refine Eq.trans (List.map_congr_left ?_) (List.map_id sdb)
      intro s hs
      simp [studentUpdateApply, hsid s hs]
    simp [adminStudentUpdateAction, hsv, hsv2, hcfg, hupd, hmap]

/-- Witness for the amended C5 on empty stores: both actions succeed and
leave the store unchanged. -/
theorem nonexistent_id_update_reports_success_witness :
    familyEditAction "missing" wForm wActionEnv [] =
      (FamilyActionResponse.redirectTo "/admin/families/missing", []) ∧
    adminStudentUpdateAction (some "missing") wStudentForm wActionEnv [] =
      (StudentActionResponse.jsonSuccess "Student details updated successfully.", []) :=
  nonexistent_id_update_reports_success "missing" "missing" wForm wStudentForm
    wActionEnv [] [] (by decide) rfl (by decide) (by decide) rfl
    (fun f hf => absurd hf (List.not_mem_nil f))
    (fun s hs => absurd hs (List.not_mem_nil s))
